import Mathlib

/-!
Verification of the BGI-Ujjain backend (Express + Mongoose CRUD service)
against its natural-language specification.

The JavaScript route handlers and Mongoose models are shallowly embedded:
documents become Lean structures, the document store becomes an explicit
list threaded through each handler, and every handler becomes a pure
function returning its HTTP-level outcome together with the new store.
MongoDB ObjectIds and all other identifiers are Strings; JS Date values
are modelled at day granularity (comparison of two JS dates coincides
with lexicographic comparison of (year, month, day) for valid dates).
-/

namespace BGI

/-- Calendar date standing for a JS Date at day granularity.
month is 1-12 and day is 1-31 for normalised dates. -/
structure Date where
  year : Int
  month : Nat
  day : Nat
deriving DecidableEq, Repr

/-- Strict comparison of two dates, mirroring comparison of JS Date
timestamps (lexicographic on year, month, day). -/
def dateLt (a b : Date) : Prop :=
  a.year < b.year ∨ (a.year = b.year ∧ (a.month < b.month ∨ (a.month = b.month ∧ a.day < b.day)))

instance (a b : Date) : Decidable (dateLt a b) := by
  unfold dateLt; infer_instance

/-- Gregorian leap-year test, as used by the JS Date implementation. -/
def isLeap (y : Int) : Bool :=
  (y % 4 == 0 && y % 100 != 0) || y % 400 == 0

/-- Number of days in a month (month is 1-12). -/
def daysInMonth (y : Int) (m : Nat) : Nat :=
  if m == 2 then (if isLeap y then 29 else 28)
  else if m == 4 || m == 6 || m == 9 || m == 11 then 30
  else 31

/-- Re-normalisation of out-of-range date components, mirroring how a JS
Date rolls overflowing days and months over (for example Feb 29 of a
non-leap year becomes Mar 1, and January 40 becomes February 9).  The
fuel bounds the number of rollover steps; all uses in this file need at
most three. -/
def normDateGo : Nat → Int → Nat → Nat → Date
  | 0, y, m, d => ⟨y, m, d⟩
  | fuel + 1, y, m, d =>
    if m > 12 then normDateGo fuel (y + 1) (m - 12) d
    else if d > daysInMonth y m then normDateGo fuel y (m + 1) (d - daysInMonth y m)
    else ⟨y, m, d⟩

/-- Build a (normalised) date from components, as a JS Date constructor does. -/
def mkDate (y : Int) (m d : Nat) : Date := normDateGo 60 y m d

/-- Model of JS date.setFullYear(y): the month/day components are kept and
re-normalised (Feb 29 mapped into a non-leap year becomes Mar 1). -/
def setYear (dt : Date) (y : Int) : Date := mkDate y dt.month dt.day

/-- Model of JS date.setDate(date.getDate() + n). -/
def addDays (dt : Date) (n : Nat) : Date := mkDate dt.year dt.month (dt.day + n)

/-- The start year of the current subscription cycle, from
calculateSubscriptionYear in routes/finance.js: the number of whole years
since registration is the year difference, decremented when today's
month/day precedes the registration month/day. -/
def subscriptionStartYear (registrationDate today : Date) : Int :=
  if (today.month : Int) - (registrationDate.month : Int) < 0
      ∨ ((today.month : Int) - (registrationDate.month : Int) = 0
          ∧ today.day < registrationDate.day) then
    registrationDate.year + (today.year - registrationDate.year - 1)
  else
    registrationDate.year + (today.year - registrationDate.year)

/-- calculateSubscriptionYear from routes/finance.js: formats the cycle as
"startYear-(startYear+1)". -/
def calculateSubscriptionYear (registrationDate today : Date) : String :=
  toString (subscriptionStartYear registrationDate today) ++ "-"
    ++ toString (subscriptionStartYear registrationDate today + 1)

/-- User document (src/models/user.js), credential check abstracted to
comparison with the stored credential. -/
structure User where
  id : String
  name : String
  surname : String
  itsNumber : String
  password : String
  role : String
  status : String
  zone : String
  createdAt : Date
deriving DecidableEq, Repr

/-- Notification document (src/models/Notification.js).  The schema field
named type is rendered ntype here because type is a Lean keyword. -/
structure Notification where
  message : String
  ntype : String
  miqaatId : Option String
  createdBy : String
  forUsers : List String
  readBy : List String
deriving DecidableEq, Repr

/-- MongoDB addToSet on an array field: append the value if absent. -/
def addToSet (xs : List String) (x : String) : List String :=
  if x ∈ xs then xs else xs ++ [x]

/-- MongoDB pull on an array field: remove every occurrence of the value. -/
def pullElem (xs : List String) (x : String) : List String :=
  xs.filter (fun y => y ≠ x)

/-- markAsRead (notificationController): addToSet the caller into readBy of
the one notification found by id; no check that the caller is a recipient. -/
def markAsRead (userId : String) (n : Notification) : Notification :=
  { n with readBy := addToSet n.readBy userId }

/-- markAllAsRead (notificationController): updateMany over the documents
whose forUsers contains the caller, addToSet-ing the caller into readBy. -/
def markAllAsRead (userId : String) (store : List Notification) : List Notification :=
  store.map (fun n =>
    if userId ∈ n.forUsers then { n with readBy := addToSet n.readBy userId } else n)

/-- clearNotification (notificationController): pull the caller out of
forUsers of the one notification found by id; readBy is left untouched. -/
def clearNotification (userId : String) (n : Notification) : Notification :=
  { n with forUsers := pullElem n.forUsers userId }

/-- clearAllNotifications (notificationController): updateMany over the
documents whose forUsers contains the caller, pulling the caller out of
forUsers only. -/
def clearAllNotifications (userId : String) (store : List Notification) : List Notification :=
  store.map (fun n =>
    if userId ∈ n.forUsers then { n with forUsers := pullElem n.forUsers userId } else n)

/-- The ids of the currently active users, in store order. -/
def activeUserIds (users : List User) : List String :=
  (users.filter (fun u => u.status == "active")).map (fun u => u.id)

/-- Modelled from the spec: src/utils/notifyAllUsers.js is imported by
miqaatController.js and seedAdmin.js but the utility file itself is not in
this snapshot.  Spec section 4.4: resolve the current set of active users
and, if non-empty, create exactly one notification document addressed to
all of them with an empty read list; if no active users exist, create
nothing and signal "nothing created" (not an error), here the none value.
The message argument may carry an optional related-event reference, split
out as the miqaatId argument. -/
def notifyAllUsers (ntype text : String) (miqaatId : Option String) (createdBy : String)
    (users : List User) : Option Notification :=
  if activeUserIds users = [] then none
  else some
    { message := text
      ntype := ntype
      miqaatId := miqaatId
      createdBy := createdBy
      forUsers := activeUserIds users
      readBy := [] }

/-- Outcome of the login handler. -/
inductive LoginResult where
  | unauthorized (message : String)
  | ok (userId role token redirectTo : String)
deriving DecidableEq, Repr

/-- getDashboardRoute (authController.js). -/
def getDashboardRoute (role : String) : String :=
  if role == "SuperAdmin" then "/SuperAdminDashboard"
  else if role == "Admin" then "/admin-dashboard"
  else if role == "Captain" then "/captain-dashboard"
  else if role == "Finance" then "/finance-dashboard"
  else if role == "Member" then "/member-dashboard"
  else "/login"

/-- generateToken (authController.js): a signed JWT carrying the user id
and role; the signature itself is abstracted, the token is modelled as the
carried payload. -/
def generateToken (u : User) : String :=
  u.id ++ ":" ++ u.role

/-- loginUser (authController.js lines 46-108): find the user by ITS
number, reject unknown users, then inactive users, then a wrong
credential, each with a 401 outcome; otherwise issue a token and the
role-based redirect. -/
def loginUser (itsNumber password : String) (users : List User) : LoginResult :=
  match users.find? (fun u => u.itsNumber == itsNumber) with
  | none => .unauthorized "User not found"
  | some u =>
    if u.status ≠ "active" then .unauthorized "User account is inactive"
    else if u.password ≠ password then .unauthorized "Invalid ITS number or password"
    else .ok u.id u.role (generateToken u) (getDashboardRoute u.role)

/-- Attendance sub-document of a Miqaat (src/models/Miqaat.js). -/
structure AttendanceEntry where
  member : String
  status : String
  checkIn : Option Date
  checkOut : Option Date
deriving DecidableEq, Repr

/-- Miqaat (event) document (src/models/Miqaat.js). -/
structure Miqaat where
  name : String
  location : String
  date : Date
  createdBy : String
  attendance : List AttendanceEntry
deriving DecidableEq, Repr

/-- Outcome of the attendance self-registration handler. -/
inductive RegisterResult where
  | badRequest (message : String)
  | ok (message : String)
deriving DecidableEq, Repr

/-- registerMiqaatAttendance (miqaatController.js lines 192-233), applied
to the miqaat document found by the route id (the not-found case returns
404 before this logic runs).  A missing/empty memberId is rejected with
400; a member already present in the attendance list gets a success
response and the document is left unchanged; otherwise one entry with
status Present and the current time as check-in is appended.  No lookup
against the user store is performed. -/
def registerMiqaatAttendance (miqaat : Miqaat) (memberId : String) (now : Date) :
    RegisterResult × Miqaat :=
  if memberId = "" then (.badRequest "memberId is required.", miqaat)
  else if miqaat.attendance.any (fun a => a.member == memberId) then
    (.ok "Already registered for Khidmat.", miqaat)
  else
    (.ok "Registered for Khidmat successfully.",
      { miqaat with attendance := miqaat.attendance
          ++ [{ member := memberId, status := "Present", checkIn := some now, checkOut := none }] })

/-- Count of attendance entries recorded for one member. -/
def countMember (l : List AttendanceEntry) (x : String) : Nat :=
  (l.filter (fun a => a.member == x)).length

/-- mongoose.Types.ObjectId.isValid for string inputs: a 24-character hex
string or any 12-character string. -/
def isValidObjectId (s : String) : Bool :=
  (s.length == 24 && s.toList.all (fun c => c.isDigit
      || ('a' ≤ c && c ≤ 'f') || ('A' ≤ c && c ≤ 'F')))
    || s.length == 12

/-- ASCII whitespace as trimmed by JS String.prototype.trim (the common
cases; exotic Unicode space classes do not occur in this data model). -/
def isWsChar (c : Char) : Bool :=
  c == ' ' || c == '\t' || c == '\n' || c == '\r'

/-- JS String.prototype.trim: drop leading and trailing whitespace. -/
def jsTrim (s : String) : String :=
  String.mk (((s.toList.dropWhile isWsChar).reverse.dropWhile isWsChar).reverse)

/-- normalizeValue (dutyChartController): null/undefined stays null, a
string is trimmed with the empty result mapped to null.  Body values are
modelled as Option String, so only the string branch of the JS helper is
reachable. -/
def normalizeValue (v : Option String) : Option String :=
  match v with
  | none => none
  | some s => if jsTrim s = "" then none else some (jsTrim s)

/-- JS truthiness test for a string-valued body field: missing or empty. -/
def isBlank (v : Option String) : Bool :=
  match v with
  | none => true
  | some s => s == ""

/-- JS x || dflt for a string-valued field with a string default. -/
def jsOr (v : Option String) (dflt : String) : String :=
  match v with
  | none => dflt
  | some s => if s = "" then dflt else s

/-- JS x || dflt where both sides are nullable strings. -/
def jsOrOpt (v : Option String) (dflt : Option String) : Option String :=
  match v with
  | none => dflt
  | some s => if s = "" then dflt else some s

/-- Assignment sub-document of a DutyChart (src/models/DutyChart.js). -/
structure Assignment where
  location : String
  area : String
  inchargeOfficer : Option String
  subInchargeOfficer : Option String
  task : String
  team : String
  members : List String
deriving DecidableEq, Repr

/-- DutyChart document (src/models/DutyChart.js); captain and viceCaptain
flatten the eventIncharge pair. -/
structure DutyChart where
  title : String
  eventName : String
  jamiatIncharge : Option String
  captain : Option String
  viceCaptain : Option String
  createdBy : Option String
  dutyDate : String
  reportingTime : String
  dressCode : String
  assignments : List Assignment
deriving DecidableEq, Repr

/-- Request-body shape of one assignment row. -/
structure AssignmentInput where
  location : Option String
  area : Option String
  inchargeOfficer : Option String
  subInchargeOfficer : Option String
  task : Option String
  team : Option String
  members : List String
deriving DecidableEq, Repr

/-- Request body of the duty-chart create/update endpoints; absent
assignments arrive as none. -/
structure ChartBody where
  title : Option String
  eventName : Option String
  jamiatIncharge : Option String
  captain : Option String
  viceCaptain : Option String
  dutyDate : Option String
  reportingTime : Option String
  dressCode : Option String
  assignments : Option (List AssignmentInput)
deriving DecidableEq, Repr

/-- sanitizeAssignment of createDutyChart (miqaatController.js duty-chart
revision, lines 798-806): keep typed strings, normalise reference fields,
drop member entries that normalise to null. -/
def sanitizeAssignmentCreate (a : AssignmentInput) : Assignment :=
  { location := a.location.getD ""
    area := a.area.getD ""
    inchargeOfficer := normalizeValue a.inchargeOfficer
    subInchargeOfficer := normalizeValue a.subInchargeOfficer
    task := a.task.getD ""
    team := a.team.getD ""
    members := a.members.filterMap (fun s => normalizeValue (some s)) }

/-- Insertion into the referencedUserIds JS Set: dedup, insertion order. -/
def addUniq (xs : List String) (x : String) : List String :=
  if x ∈ xs then xs else xs ++ [x]

/-- Add a nullable reference field to the collected set when it is a valid
ObjectId. -/
def addIfValidId (xs : List String) (v : Option String) : List String :=
  match v with
  | none => xs
  | some s => if isValidObjectId s then addUniq xs s else xs

/-- The referencedUserIds set collected by createDutyChart: the top-level
in-charge, captain and vice-captain, then each assignment's officers and
member list, keeping only values that are valid ObjectIds. -/
def collectChartRefs (jam cap vice : Option String) (assignments : List Assignment) :
    List String :=
  assignments.foldl
    (fun acc a =>
      (a.members.foldl
        (fun acc2 mId => if isValidObjectId mId then addUniq acc2 mId else acc2)
        (addIfValidId (addIfValidId acc a.inchargeOfficer) a.subInchargeOfficer)))
    (addIfValidId (addIfValidId (addIfValidId [] jam) cap) vice)

/-- Outcome of the duty-chart create/update handlers. -/
inductive ChartResult where
  | forbidden (message : String)
  | badRequest (message : String) (missing : List String)
  | created (chart : DutyChart)
deriving DecidableEq, Repr

/-- The payload document assembled by createDutyChart (miqaatController.js
duty-chart revision, lines 808-821) before validation. -/
def chartPayload (creatorId : String) (body : ChartBody) : DutyChart :=
  { title := jsOr body.title "Burhani Guards Ujjain Duty Chart"
    eventName := body.eventName.getD ""
    jamiatIncharge := normalizeValue body.jamiatIncharge
    captain := normalizeValue body.captain
    viceCaptain := normalizeValue body.viceCaptain
    createdBy := some creatorId
    dutyDate := body.dutyDate.getD ""
    reportingTime := body.reportingTime.getD ""
    dressCode := body.dressCode.getD ""
    assignments := (body.assignments.getD []).map sanitizeAssignmentCreate }

/-- The reference set collected for a create request. -/
def chartRefs (creatorId : String) (body : ChartBody) : List String :=
  collectChartRefs (chartPayload creatorId body).jamiatIncharge
    (chartPayload creatorId body).captain
    (chartPayload creatorId body).viceCaptain
    (chartPayload creatorId body).assignments

/-- createDutyChart (miqaatController.js duty-chart revision, lines
772-881).  Role gate, required-field validation, jamiatIncharge presence
check, then inside one transaction: batch existence check of every
collected valid-ObjectId reference against the user store (userIds are
the distinct stored user ids) and, only if none is missing, the save.  A
missing reference aborts with 400 carrying the missing ids and leaves the
chart store untouched. -/
def createDutyChart (role creatorId : String) (body : ChartBody)
    (userIds : List String) (charts : List DutyChart) : ChartResult × List DutyChart :=
  if ¬ (role = "Admin" ∨ role = "SuperAdmin") then
    (.forbidden "Forbidden. Admins only.", charts)
  else if isBlank body.eventName || isBlank body.dutyDate || isBlank body.reportingTime
      || isBlank body.dressCode then
    (.badRequest
      "Missing required fields: eventName, dutyDate, reportingTime, dressCode are required." [],
     charts)
  else
    let payload : DutyChart := chartPayload creatorId body
    if payload.jamiatIncharge.isNone then
      (.badRequest "Please provide a valid Jamiat Incharge (select or type a name)." [], charts)
    else
      let refs := collectChartRefs payload.jamiatIncharge payload.captain payload.viceCaptain
        payload.assignments
      let found := refs.filter (fun r => userIds.contains r)
      if found.length ≠ refs.length then
        (.badRequest "Some referenced user IDs not found"
          (refs.filter (fun r => !(found.contains r))), charts)
      else
        (.created payload, charts ++ [payload])

/-- sanitizeAssignment of updateDutyChart (miqaatController.js duty-chart
revision, lines 945-950): spread the incoming row, normalising the
reference fields and dropping member entries that normalise to null. -/
def sanitizeAssignmentUpdate (a : AssignmentInput) : Assignment :=
  { location := a.location.getD ""
    area := a.area.getD ""
    inchargeOfficer := normalizeValue a.inchargeOfficer
    subInchargeOfficer := normalizeValue a.subInchargeOfficer
    task := a.task.getD ""
    team := a.team.getD ""
    members := a.members.filterMap (fun s => normalizeValue (some s)) }

/-- updateDutyChart (miqaatController.js duty-chart revision, lines
930-980), applied to the chart found by the route id.  Every field falls
back to the stored value when the incoming one is falsy, and the
assignments array is replaced only when the sanitised incoming array is
non-empty. -/
def updateDutyChart (role : String) (chart : DutyChart) (body : ChartBody) :
    ChartResult × DutyChart :=
  if ¬ (role = "Admin" ∨ role = "SuperAdmin") then (.forbidden "Forbidden", chart)
  else
    let sanitized := (body.assignments.getD []).map sanitizeAssignmentUpdate
    let updated : DutyChart :=
      { title := jsOr body.title chart.title
        eventName := jsOr body.eventName chart.eventName
        jamiatIncharge := jsOrOpt (normalizeValue body.jamiatIncharge) chart.jamiatIncharge
        captain := jsOrOpt (normalizeValue body.captain) chart.captain
        viceCaptain := jsOrOpt (normalizeValue body.viceCaptain) chart.viceCaptain
        createdBy := chart.createdBy
        dutyDate := jsOr body.dutyDate chart.dutyDate
        reportingTime := jsOr body.reportingTime chart.reportingTime
        dressCode := jsOr body.dressCode chart.dressCode
        assignments := if sanitized.length ≠ 0 then sanitized else chart.assignments }
    (.created updated, updated)

/-- Payment document (models/Payment.js as used by routes/finance.js).
The database-assigned document id is pid; payments created inside this
file get "" since no handler reads the id of a newly created payment. -/
structure Payment where
  pid : String
  memberId : String
  memberName : String
  itsNumber : String
  zone : String
  amount : Int
  paymentType : String
  status : String
  subscriptionYear : String
  dueDate : Date
  paidDate : Option Date
  paymentMethod : Option String
  transactionId : Option String
  receiptNumber : Option String
  remarks : String
  recordedBy : String
  autoGenerated : Bool
deriving DecidableEq, Repr

/-- Per-item outcome lists of a bulk operation: ids that succeeded, and
(id, reason) pairs that failed. -/
structure BulkResults where
  success : List String
  failed : List (String × String)
deriving DecidableEq, Repr

/-- Outcome of a bulk finance endpoint. -/
inductive BulkOutcome where
  | badRequest (message : String)
  | ok (results : BulkResults)
deriving DecidableEq, Repr

/-- The pending payment created per member by POST /bulk-dues
(routes/finance.js lines 423-436): annual-subscription type, computed
subscription year, due 30 days from now. -/
def mkDuePayment (m : User) (amount : Int) (today : Date) (remarks recordedBy : String) :
    Payment :=
  { pid := ""
    memberId := m.id
    memberName := m.name ++ " " ++ m.surname
    itsNumber := m.itsNumber
    zone := m.zone
    amount := amount
    paymentType := "Annual Subscription"
    status := "Pending"
    subscriptionYear := calculateSubscriptionYear m.createdAt today
    dueDate := addDays today 30
    paidDate := none
    paymentMethod := none
    transactionId := none
    receiptNumber := none
    remarks := remarks
    recordedBy := recordedBy
    autoGenerated := false }

/-- Item loop of POST /bulk-dues (routes/finance.js lines 410-452): each
member id is looked up independently; an unresolved id contributes one
failure with reason "Member not found", a resolved one contributes one
saved pending payment and one success entry.  No failure aborts the loop. -/
def bulkDuesGo (users : List User) (amount : Int) (today : Date) (remarks recordedBy : String) :
    List String → List Payment → BulkResults → BulkResults × List Payment
  | [], store, acc => (acc, store)
  | mid :: rest, store, acc =>
    match users.find? (fun u => u.id == mid) with
    | none => bulkDuesGo users amount today remarks recordedBy rest store
        { acc with failed := acc.failed ++ [(mid, "Member not found")] }
    | some m => bulkDuesGo users amount today remarks recordedBy rest
        (store ++ [mkDuePayment m amount today remarks recordedBy])
        { acc with success := acc.success ++ [mid] }

/-- POST /bulk-dues (routes/finance.js): reject an empty selection and a
non-positive amount with 400, then run the item loop. -/
def bulkDues (users : List User) (memberIds : List String) (amount : Int) (today : Date)
    (remarks recordedBy : String) (store : List Payment) : BulkOutcome × List Payment :=
  if memberIds = [] then (.badRequest "No members selected", store)
  else if amount ≤ 0 then (.badRequest "Invalid amount", store)
  else
    let out := bulkDuesGo users amount today remarks recordedBy memberIds store ⟨[], []⟩
    (.ok out.1, out.2)

/-- The per-payment update of POST /bulk-mark-paid (routes/finance.js
lines 493-505): transition to Paid, stamp the paid date, default the
method to Cash and the transaction id to the empty string, overwrite the
remarks only when supplied, and generate a receipt number when absent. -/
def markPaidOne (p : Payment) (today : Date) (method txn remarks : Option String)
    (receipt : String) : Payment :=
  { p with
    status := "Paid"
    paidDate := some today
    paymentMethod := some (jsOr method "Cash")
    transactionId := some (txn.getD "")
    remarks := match remarks with
      | none => p.remarks
      | some r => if r = "" then p.remarks else r
    receiptNumber := some (match p.receiptNumber with
      | some r => r
      | none => receipt) }

/-- Item loop of POST /bulk-mark-paid (routes/finance.js lines 484-521):
each payment id is looked up independently; an unresolved id contributes
one failure with reason "Payment not found", a resolved one is updated in
place and contributes one success entry.  The generated receipt numbers
are abstracted as a function of the item index. -/
def bulkMarkPaidGo (today : Date) (method txn remarks : Option String)
    (genReceipt : Nat → String) :
    List String → List Payment → BulkResults → Nat → BulkResults × List Payment
  | [], store, acc, _ => (acc, store)
  | pid :: rest, store, acc, k =>
    if store.any (fun p => p.pid == pid) then
      bulkMarkPaidGo today method txn remarks genReceipt rest
        (store.map (fun p =>
          if p.pid == pid then markPaidOne p today method txn remarks (genReceipt k) else p))
        { acc with success := acc.success ++ [pid] } (k + 1)
    else
      bulkMarkPaidGo today method txn remarks genReceipt rest store
        { acc with failed := acc.failed ++ [(pid, "Payment not found")] } (k + 1)

/-- POST /bulk-mark-paid (routes/finance.js): reject an empty selection
with 400, then run the item loop. -/
def bulkMarkPaid (paymentIds : List String) (today : Date) (method txn remarks : Option String)
    (genReceipt : Nat → String) (store : List Payment) : BulkOutcome × List Payment :=
  if paymentIds = [] then (.badRequest "Please select at least one payment", store)
  else
    let out := bulkMarkPaidGo today method txn remarks genReceipt paymentIds store ⟨[], []⟩ 0
    (.ok out.1, out.2)

/-- The existingPayment lookup of POST /generate-annual-dues: an
annual-subscription payment of this member for this subscription year. -/
def annualDueMatches (memberId sy : String) (p : Payment) : Bool :=
  p.memberId == memberId && (p.paymentType == "Annual Subscription" && p.subscriptionYear == sy)

/-- Whether the store already holds a matching annual due. -/
def annualDueExists (store : List Payment) (memberId sy : String) : Bool :=
  store.any (annualDueMatches memberId sy)

/-- The payment created per member by POST /generate-annual-dues
(routes/finance.js lines 612-628): due 30 days after this year's
registration anniversary, Overdue when that date has already passed. -/
def mkAnnualPayment (m : User) (amount : Int) (today : Date) (recordedBy : String) : Payment :=
  { pid := ""
    memberId := m.id
    memberName := m.name ++ " " ++ m.surname
    itsNumber := m.itsNumber
    zone := m.zone
    amount := amount
    paymentType := "Annual Subscription"
    status := if dateLt (addDays (setYear m.createdAt today.year) 30) today
      then "Overdue" else "Pending"
    subscriptionYear := calculateSubscriptionYear m.createdAt today
    dueDate := addDays (setYear m.createdAt today.year) 30
    paidDate := none
    paymentMethod := none
    transactionId := none
    receiptNumber := none
    remarks := ""
    recordedBy := recordedBy
    autoGenerated := true }

/-- Counters accumulated by the sweep; in the source the processed counter
is only incremented on the non-skipped paths because continue jumps past
it. -/
structure GenResults where
  processed : Nat
  created : Nat
  skipped : Nat
deriving DecidableEq, Repr

/-- Member loop of POST /generate-annual-dues (routes/finance.js lines
586-642): a member registered after one year ago is skipped; a member
with an existing annual due for the computed subscription year is
skipped; otherwise exactly one auto-generated payment is saved. -/
def generateDuesGo (amount : Int) (today : Date) (recordedBy : String) :
    List User → List Payment → GenResults → GenResults × List Payment
  | [], store, acc => (acc, store)
  | m :: rest, store, acc =>
    if dateLt (setYear today (today.year - 1)) m.createdAt then
      generateDuesGo amount today recordedBy rest store { acc with skipped := acc.skipped + 1 }
    else if annualDueExists store m.id (calculateSubscriptionYear m.createdAt today) then
      generateDuesGo amount today recordedBy rest store { acc with skipped := acc.skipped + 1 }
    else
      generateDuesGo amount today recordedBy rest
        (store ++ [mkAnnualPayment m amount today recordedBy])
        { acc with created := acc.created + 1, processed := acc.processed + 1 }

/-- The members swept by POST /generate-annual-dues: active users with the
Member role. -/
def activeMembers (users : List User) : List User :=
  users.filter (fun u => u.role == "Member" && u.status == "active")

/-- POST /generate-annual-dues (routes/finance.js lines 569-654). -/
def generateAnnualDues (users : List User) (amount : Int) (today : Date) (recordedBy : String)
    (store : List Payment) : GenResults × List Payment :=
  generateDuesGo amount today recordedBy (activeMembers users) store ⟨0, 0, 0⟩

/- Concrete sample documents used by counterexamples and witnesses. -/

/-- A notification already read by user u1 and addressed to u1 and u2. -/
def c1Notification : Notification :=
  { message := "Duty update", ntype := "duty", miqaatId := none, createdBy := "admin1",
    forUsers := ["u1", "u2"], readBy := ["u1"] }

/-- A notification addressed to u2 and not yet read. -/
def c1FreshNotification : Notification :=
  { message := "General note", ntype := "general", miqaatId := none, createdBy := "admin1",
    forUsers := ["u2"], readBy := [] }

/-- Two active users and an inactive one. -/
def c2Users : List User :=
  [ { id := "a1", name := "A", surname := "One", itsNumber := "1001", password := "p1",
      role := "Member", status := "active", zone := "Z1", createdAt := ⟨2023, 4, 10⟩ },
    { id := "a2", name := "B", surname := "Two", itsNumber := "1002", password := "p2",
      role := "Admin", status := "active", zone := "Z2", createdAt := ⟨2022, 6, 1⟩ },
    { id := "a3", name := "C", surname := "Three", itsNumber := "1003", password := "p3",
      role := "Member", status := "inactive", zone := "Z1", createdAt := ⟨2021, 1, 15⟩ } ]

/-- A create-request body that is valid except for one dangling reference. -/
def c3Body : ChartBody :=
  { title := some "Chart"
    eventName := some "Ashara"
    jamiatIncharge := some "bbbbbbbbbbbbbbbbbbbbbbbb"
    captain := none
    viceCaptain := none
    dutyDate := some "2025-06-01"
    reportingTime := some "08:00"
    dressCode := some "Uniform"
    assignments := some [] }

/-- An event with no attendance yet. -/
def c4Miqaat : Miqaat :=
  { name := "Annual Gathering", location := "Hall", date := ⟨2025, 6, 1⟩,
    createdBy := "admin1", attendance := [] }

/-- A stored assignment row. -/
def c5Assignment : Assignment :=
  { location := "Gate 1", area := "North", inchargeOfficer := none,
    subInchargeOfficer := none, task := "Security", team := "A", members := [] }

/-- A stored chart holding one assignment row. -/
def c5Chart : DutyChart :=
  { title := "T", eventName := "E", jamiatIncharge := some "x", captain := none,
    viceCaptain := none, createdBy := none, dutyDate := "2025-01-01",
    reportingTime := "08:00", dressCode := "Uniform", assignments := [c5Assignment] }

/-- An update body supplying an empty assignments array. -/
def c5EmptyBody : ChartBody :=
  { title := none, eventName := none, jamiatIncharge := none, captain := none,
    viceCaptain := none, dutyDate := none, reportingTime := none, dressCode := none,
    assignments := some [] }

/-- An incoming assignment row for the update witness. -/
def c5InputRow : AssignmentInput :=
  { location := some "Gate 2", area := some "South", inchargeOfficer := some " ",
    subInchargeOfficer := none, task := some "Watch", team := some "B",
    members := ["m1", ""] }

/-- An update body supplying one assignment row. -/
def c5RowBody : ChartBody :=
  { title := none, eventName := none, jamiatIncharge := none, captain := none,
    viceCaptain := none, dutyDate := none, reportingTime := none, dressCode := none,
    assignments := some [c5InputRow] }

/-- An inactive user holding the credential "pw". -/
def c9User : User :=
  { id := "u9", name := "I", surname := "Nactive", itsNumber := "40491000",
    password := "pw", role := "Member", status := "inactive", zone := "Z1",
    createdAt := ⟨2020, 2, 2⟩ }

/-- Four resolvable members for the bulk-dues witness. -/
def c8Users : List User :=
  [ { id := "m1", name := "M", surname := "One", itsNumber := "2001", password := "q1",
      role := "Member", status := "active", zone := "Z1", createdAt := ⟨2023, 1, 5⟩ },
    { id := "m2", name := "M", surname := "Two", itsNumber := "2002", password := "q2",
      role := "Member", status := "active", zone := "Z1", createdAt := ⟨2023, 2, 6⟩ },
    { id := "m3", name := "M", surname := "Three", itsNumber := "2003", password := "q3",
      role := "Member", status := "active", zone := "Z2", createdAt := ⟨2023, 3, 7⟩ },
    { id := "m4", name := "M", surname := "Four", itsNumber := "2004", password := "q4",
      role := "Member", status := "active", zone := "Z2", createdAt := ⟨2023, 4, 8⟩ } ]

/-- An active member registered over a year before the sweep date. -/
def c6Member : User :=
  { id := "m1", name := "M", surname := "One", itsNumber := "2001", password := "q1",
    role := "Member", status := "active", zone := "Z1", createdAt := ⟨2023, 4, 1⟩ }

/- Theorems. -/

theorem mem_addToSet {xs : List String} {x v : String} :
    v ∈ addToSet xs x ↔ v ∈ xs ∨ v = x := by
  unfold addToSet
  split
  · constructor
    · exact Or.inl
    · rintro (h | rfl)
      · exact h
      · assumption
  · simp

theorem mem_pullElem {xs : List String} {x v : String} :
    v ∈ pullElem xs x ↔ v ∈ xs ∧ v ≠ x := by
  simp [pullElem]

/-- C1 counterexample: the notification c1Notification satisfies
readBy subset of forUsers, yet after the clear operation by u1 the subset
relation is broken (u1 stays in readBy while leaving forUsers), refuting
the claim that the invariant survives every read/clear operation. -/
theorem clear_breaks_readBy_subset :
    c1Notification.readBy ⊆ c1Notification.forUsers
    ∧ ¬ ((clearNotification "u1" c1Notification).readBy
          ⊆ (clearNotification "u1" c1Notification).forUsers) := by
  decide

/-- C1 (amended): mark-as-read preserves readBy subset of forUsers when
the caller is a recipient, mark-all-as-read always preserves it, while
clear and clear-all remove the caller from forUsers without touching
readBy, so after a clear the subset relation is only guaranteed for users
other than the cleared caller. -/
theorem notification_ops_readBy_subset (u : String) (n : Notification)
    (store : List Notification) :
    (u ∈ n.forUsers → n.readBy ⊆ n.forUsers →
      (markAsRead u n).readBy ⊆ (markAsRead u n).forUsers)
    ∧ ((∀ m ∈ store, m.readBy ⊆ m.forUsers) →
        ∀ m ∈ markAllAsRead u store, m.readBy ⊆ m.forUsers)
    ∧ ((clearNotification u n).readBy = n.readBy
        ∧ u ∉ (clearNotification u n).forUsers
        ∧ (n.readBy ⊆ n.forUsers → ∀ v ∈ (clearNotification u n).readBy, v ≠ u →
            v ∈ (clearNotification u n).forUsers))
    ∧ ((∀ m ∈ store, m.readBy ⊆ m.forUsers) →
        ∀ m ∈ clearAllNotifications u store,
          u ∉ m.forUsers ∧ ∀ v ∈ m.readBy, v ≠ u → v ∈ m.forUsers) := by
  refine ⟨?_, ?_, ⟨rfl, ?_, ?_⟩, ?_⟩
  · intro hu hsub v hv
    rcases mem_addToSet.1 hv with h | rfl
    · exact hsub h
    · exact hu
  · intro hall m hm
    rcases List.mem_map.1 hm with ⟨m₀, hm₀, rfl⟩
    split
    · intro v hv
      rcases mem_addToSet.1 hv with h | rfl
      · exact hall m₀ hm₀ h
      · assumption
    · exact hall m₀ hm₀
  · exact fun h => (mem_pullElem.1 h).2 rfl
  · intro hsub v hv hvu
    exact mem_pullElem.2 ⟨hsub hv, hvu⟩
  · intro hall m hm
    rcases List.mem_map.1 hm with ⟨m₀, hm₀, rfl⟩
    split
    · refine ⟨fun h => (mem_pullElem.1 h).2 rfl, ?_⟩
      intro v hv hvu
      exact mem_pullElem.2 ⟨hall m₀ hm₀ hv, hvu⟩
    · next hnot =>
      refine ⟨hnot, fun v hv _ => hall m₀ hm₀ hv⟩

/-- Witness for the amended C1 theorem at a concrete notification. -/
theorem notification_ops_readBy_subset_witness :
    (markAsRead "u2" c1FreshNotification).readBy
      ⊆ (markAsRead "u2" c1FreshNotification).forUsers :=
  (notification_ops_readBy_subset "u2" c1FreshNotification []).1 (by decide) (by decide)

/-- C2: a fan-out call with a non-empty active-user set creates exactly
one notification addressed to exactly those users with an empty read
list, and a call with no active users creates nothing (none, not an
error). -/
theorem notifyAllUsers_fanout (ntype text : String) (mid : Option String) (creator : String)
    (users : List User) :
    (activeUserIds users ≠ [] →
      notifyAllUsers ntype text mid creator users
        = some { message := text, ntype := ntype, miqaatId := mid, createdBy := creator,
                 forUsers := activeUserIds users, readBy := [] })
    ∧ (activeUserIds users = [] → notifyAllUsers ntype text mid creator users = none) := by
  constructor <;> intro h <;> simp [notifyAllUsers, h]

/-- Witness for C2 at a concrete user store with two active users. -/
theorem notifyAllUsers_fanout_witness :
    notifyAllUsers "miqaat" "A new Miqaat" (some "m1") "a2" c2Users
      = some { message := "A new Miqaat", ntype := "miqaat", miqaatId := some "m1",
               createdBy := "a2", forUsers := ["a1", "a2"], readBy := [] } :=
  (notifyAllUsers_fanout "miqaat" "A new Miqaat" (some "m1") "a2" c2Users).1 (by decide)

theorem length_filter_lt {α : Type} {p : α → Bool} :
    ∀ {l : List α} {x : α}, x ∈ l → p x = false → (l.filter p).length < l.length := by
  intro l
  induction l with
  | nil => intro x hx; cases hx
  | cons a t ih =>
    intro x hx hpx
    rcases List.mem_cons.1 hx with rfl | hxt
    · rw [List.filter_cons, hpx]
      simp only [Bool.false_eq_true, if_false, List.length_cons]
      exact Nat.lt_succ_of_le (List.length_filter_le p t)
    · cases hpa : p a
      · rw [List.filter_cons, hpa]
        simp only [Bool.false_eq_true, if_false, List.length_cons]
        exact Nat.lt_succ_of_lt (ih hxt hpx)
      · rw [List.filter_cons, hpa]
        simp only [if_true, List.length_cons]
        exact Nat.succ_lt_succ (ih hxt hpx)

/-- C3: a duty-chart create request that is otherwise valid but carries at
least one valid-ObjectId reference not resolving to a stored user fails
with the 400 "Some referenced user IDs not found" outcome whose missing
list holds exactly the unresolved references (including the offending
one), and the chart store is left untouched: nothing is persisted. -/
theorem createDutyChart_missing_refs_rejected (role creatorId : String) (body : ChartBody)
    (userIds : List String) (charts : List DutyChart) (r : String)
    (hrole : role = "Admin" ∨ role = "SuperAdmin")
    (hreq : (isBlank body.eventName || isBlank body.dutyDate || isBlank body.reportingTime
        || isBlank body.dressCode) = false)
    (hjam : (chartPayload creatorId body).jamiatIncharge.isNone = false)
    (hr : r ∈ chartRefs creatorId body)
    (hmiss : userIds.contains r = false) :
    createDutyChart role creatorId body userIds charts
      = (.badRequest "Some referenced user IDs not found"
          ((chartRefs creatorId body).filter (fun x => !(userIds.contains x))), charts)
      ∧ r ∈ (chartRefs creatorId body).filter (fun x => !(userIds.contains x)) := by
  have hmem : r ∈ (chartRefs creatorId body).filter (fun x => !(userIds.contains x)) :=
    List.mem_filter.2 ⟨hr, by rw [hmiss]; rfl⟩
  refine ⟨?_, hmem⟩
  have hfound : ((chartRefs creatorId body).filter (fun x => userIds.contains x)).length
      < (chartRefs creatorId body).length := length_filter_lt hr hmiss
  have hcongr : (chartRefs creatorId body).filter
        (fun x => !(((chartRefs creatorId body).filter (fun y => userIds.contains y)).contains x))
      = (chartRefs creatorId body).filter (fun x => !(userIds.contains x)) := by
    refine List.filter_congr ?_
    intro x hx
    congr 1
    by_cases hux : x ∈ userIds
    · have h1 : userIds.contains x = true := List.elem_iff.2 hux
      rw [h1]
      exact List.elem_iff.2 (List.mem_filter.2 ⟨hx, h1⟩)
    · have h1 : userIds.contains x = false := by
        cases h : userIds.contains x
        · rfl
        · exact absurd (List.elem_iff.1 h) hux
      rw [h1]
      cases h2 : ((chartRefs creatorId body).filter (fun y => userIds.contains y)).contains x
      · rfl
      · have := (List.mem_filter.1 (List.elem_iff.1 h2)).2
        rw [h1] at this
        cases this
  simp only [createDutyChart]
  rw [if_neg (not_not_intro hrole)]
  rw [if_neg (by rw [hreq]; exact Bool.false_ne_true)]
  rw [if_neg (by rw [hjam]; exact Bool.false_ne_true)]
  rw [show (collectChartRefs (chartPayload creatorId body).jamiatIncharge
      (chartPayload creatorId body).captain (chartPayload creatorId body).viceCaptain
      (chartPayload creatorId body).assignments) = chartRefs creatorId body from rfl]
  rw [if_pos (Nat.ne_of_lt hfound)]
  rw [hcongr]

/-- Witness for C3: a body referencing a user id absent from the store is
rejected with that id in the missing list and nothing persisted. -/
theorem createDutyChart_missing_refs_rejected_witness :
    createDutyChart "Admin" "u0" c3Body ["aaaaaaaaaaaaaaaaaaaaaaaa"] []
      = (.badRequest "Some referenced user IDs not found"
          ((chartRefs "u0" c3Body).filter
            (fun x => !(List.contains ["aaaaaaaaaaaaaaaaaaaaaaaa"] x))), [])
      ∧ "bbbbbbbbbbbbbbbbbbbbbbbb" ∈ (chartRefs "u0" c3Body).filter
          (fun x => !(List.contains ["aaaaaaaaaaaaaaaaaaaaaaaa"] x)) :=
  createDutyChart_missing_refs_rejected "Admin" "u0" c3Body ["aaaaaaaaaaaaaaaaaaaaaaaa"] []
    "bbbbbbbbbbbbbbbbbbbbbbbb" (Or.inl rfl) (by decide) (by decide) (by decide) (by decide)

/-- C4: attendance self-registration is idempotent: a member already in
the attendance list gets a success response and the document is left
unchanged, otherwise exactly one Present entry with the current check-in
time is appended, and a second registration leaves exactly one entry for
that member. -/
theorem registerAttendance_idempotent (m : Miqaat) (memberId : String) (now now2 : Date)
    (hne : memberId ≠ "") :
    (m.attendance.any (fun a => a.member == memberId) = true →
      registerMiqaatAttendance m memberId now = (.ok "Already registered for Khidmat.", m))
    ∧ (m.attendance.any (fun a => a.member == memberId) = false →
        registerMiqaatAttendance m memberId now
          = (.ok "Registered for Khidmat successfully.",
             { m with attendance := m.attendance
                 ++ [⟨memberId, "Present", some now, none⟩] })
        ∧ registerMiqaatAttendance (registerMiqaatAttendance m memberId now).2 memberId now2
            = (.ok "Already registered for Khidmat.",
               (registerMiqaatAttendance m memberId now).2)
        ∧ countMember (registerMiqaatAttendance m memberId now).2.attendance memberId = 1) := by
  constructor
  · intro hmem
    unfold registerMiqaatAttendance
    rw [if_neg hne, hmem]
    simp
  · intro habs
    have h1 : registerMiqaatAttendance m memberId now
        = (.ok "Registered for Khidmat successfully.",
           { m with attendance := m.attendance ++ [⟨memberId, "Present", some now, none⟩] }) := by
      unfold registerMiqaatAttendance
      rw [if_neg hne, habs]
      simp
    have hany : ({ m with attendance := m.attendance
        ++ [⟨memberId, "Present", some now, none⟩] } : Miqaat).attendance.any
          (fun a => a.member == memberId) = true := by
      simp
    refine ⟨h1, ?_, ?_⟩
    · rw [h1]
      unfold registerMiqaatAttendance
      rw [if_neg hne]
      simp [hany]
    · rw [h1]
      unfold countMember
      rw [List.filter_append]
      have hnil : m.attendance.filter (fun a => a.member == memberId) = [] := by
        rw [List.filter_eq_nil_iff]
        intro a ha
        have := List.any_eq_false.mp habs a ha
        simpa using this
      simp [hnil]

/-- Witness for C4 at a concrete event and member. -/
theorem registerAttendance_idempotent_witness :
    registerMiqaatAttendance c4Miqaat "a1" ⟨2025, 6, 1⟩
      = (.ok "Registered for Khidmat successfully.",
         { c4Miqaat with attendance := c4Miqaat.attendance
             ++ [⟨"a1", "Present", some ⟨2025, 6, 1⟩, none⟩] }) :=
  (((registerAttendance_idempotent c4Miqaat "a1" ⟨2025, 6, 1⟩ ⟨2025, 6, 2⟩
      (by decide)).2) (by decide)).1

/-- C5 counterexample: the update body c5EmptyBody supplies the
assignments array [], yet the stored array after the update is still the
previous one-element array, so the stored array does not equal the
supplied (empty) array. -/
theorem updateDutyChart_empty_assignments_counterexample :
    c5EmptyBody.assignments = some []
    ∧ (updateDutyChart "Admin" c5Chart c5EmptyBody).2.assignments = [c5Assignment]
    ∧ (updateDutyChart "Admin" c5Chart c5EmptyBody).2.assignments ≠ [] := by
  decide

/-- C5 (amended): a supplied non-empty assignments array wholesale
replaces the stored array after per-row sanitisation; a supplied empty
array (or an absent field) leaves the stored array unchanged. -/
theorem updateDutyChart_assignments_replacement (role : String) (chart : DutyChart)
    (body : ChartBody) (hrole : role = "Admin" ∨ role = "SuperAdmin") :
    ((body.assignments.getD []) ≠ [] →
      (updateDutyChart role chart body).2.assignments
        = (body.assignments.getD []).map sanitizeAssignmentUpdate)
    ∧ ((body.assignments.getD []) = [] →
        (updateDutyChart role chart body).2.assignments = chart.assignments) := by
  have hr : ¬ ¬ (role = "Admin" ∨ role = "SuperAdmin") := not_not_intro hrole
  constructor <;> intro h
  · unfold updateDutyChart
    rw [if_neg hr]
    have : ((body.assignments.getD []).map sanitizeAssignmentUpdate).length ≠ 0 := by
      simpa using fun hlen => h (List.eq_nil_of_length_eq_zero hlen)
    simp only [if_pos this]
  · unfold updateDutyChart
    rw [if_neg hr]
    simp [h]

/-- Witness for the amended C5 theorem: one supplied row replaces the
stored array in sanitised form. -/
theorem updateDutyChart_assignments_replacement_witness :
    (updateDutyChart "Admin" c5Chart c5RowBody).2.assignments
      = [c5InputRow].map sanitizeAssignmentUpdate :=
  (updateDutyChart_assignments_replacement "Admin" c5Chart c5RowBody (Or.inl rfl)).1
    (by decide)

theorem length_filterMap_isSome {α β : Type} (f : α → Option β) (l : List α) :
    (l.filterMap f).length = (l.filter (fun a => (f a).isSome)).length := by
  induction l with
  | nil => rfl
  | cons a t ih => cases h : f a <;> simp [List.filterMap_cons, List.filter_cons, h, ih]

theorem length_filter_add_not {α : Type} (p : α → Bool) (l : List α) :
    (l.filter p).length + (l.filter (fun a => !(p a))).length = l.length := by
  induction l with
  | nil => rfl
  | cons a t ih => cases h : p a <;> simp [List.filter_cons, h] <;> omega

theorem bulkDuesGo_spec (users : List User) (amount : Int) (today : Date)
    (remarks recordedBy : String) :
    ∀ (ids : List String) (store : List Payment) (acc : BulkResults),
      bulkDuesGo users amount today remarks recordedBy ids store acc
        = ({ success := acc.success
               ++ ids.filter (fun i => (users.find? (fun u => u.id == i)).isSome),
             failed := acc.failed
               ++ (ids.filter (fun i => (users.find? (fun u => u.id == i)).isNone)).map
                    (fun i => (i, "Member not found")) },
           store ++ ids.filterMap (fun i => (users.find? (fun u => u.id == i)).map
             (fun m => mkDuePayment m amount today remarks recordedBy))) := by
  intro ids
  induction ids with
  | nil => intro store acc; simp [bulkDuesGo]
  | cons i rest ih =>
    intro store acc
    cases h : users.find? (fun u => u.id == i) with
    | none =>
      simp only [bulkDuesGo, h, ih, List.filter_cons, List.filterMap_cons,
        Option.isSome_none, Option.isNone_none, Option.map_none]
      simp
    | some m =>
      simp only [bulkDuesGo, h, ih, List.filter_cons, List.filterMap_cons,
        Option.isSome_some, Option.isNone_some, Option.map_some]
      simp

/-- The Paid stamp left by the bulk mark-paid update. -/
def PaidStamped (today : Date) (p : Payment) : Prop :=
  p.status = "Paid" ∧ p.paidDate = some today ∧ p.receiptNumber.isSome = true

theorem markPaidOne_pid (p : Payment) (today : Date) (method txn remarks : Option String)
    (receipt : String) : (markPaidOne p today method txn remarks receipt).pid = p.pid := rfl

theorem markPaidOne_stamped (p : Payment) (today : Date) (method txn remarks : Option String)
    (receipt : String) : PaidStamped today (markPaidOne p today method txn remarks receipt) := by
  refine ⟨rfl, rfl, ?_⟩
  cases p.receiptNumber <;> rfl

theorem any_pid_map_update (store : List Payment) (today : Date)
    (method txn remarks : Option String) (receipt : String) (pid0 i : String) :
    ((store.map (fun p =>
        if p.pid == pid0 then markPaidOne p today method txn remarks receipt else p)).any
          (fun p => p.pid == i))
      = store.any (fun p => p.pid == i) := by
  induction store with
  | nil => rfl
  | cons p t ih =>
    cases hp : (p.pid == pid0) <;>
      simp only [List.map_cons, List.any_cons, hp, if_true, if_false, Bool.false_eq_true,
        markPaidOne_pid, ih]

theorem bulkMarkPaidGo_results (today : Date) (method txn remarks : Option String)
    (genReceipt : Nat → String) :
    ∀ (ids : List String) (store : List Payment) (acc : BulkResults) (k : Nat),
      (bulkMarkPaidGo today method txn remarks genReceipt ids store acc k).1
        = { success := acc.success ++ ids.filter (fun i => store.any (fun p => p.pid == i)),
            failed := acc.failed
              ++ (ids.filter (fun i => !(store.any (fun p => p.pid == i)))).map
                   (fun i => (i, "Payment not found")) } := by
  intro ids
  induction ids with
  | nil => intro store acc k; simp [bulkMarkPaidGo]
  | cons i rest ih =>
    intro store acc k
    cases h : store.any (fun p => p.pid == i) with
    | false =>
      simp only [bulkMarkPaidGo, h, Bool.false_eq_true, if_false, ih, List.filter_cons,
        Bool.not_false, if_true, List.map_cons]
      simp
    | true =>
      simp only [bulkMarkPaidGo, h, if_true, ih, List.filter_cons, Bool.not_true,
        Bool.false_eq_true, if_false]
      have hrest : ∀ (q : List String),
          q.filter (fun j => (store.map (fun p =>
            if p.pid == i then markPaidOne p today method txn remarks (genReceipt k) else p)).any
              (fun p => p.pid == j))
           = q.filter (fun j => store.any (fun p => p.pid == j)) := by
        intro q
        refine List.filter_congr ?_
        intro j _
        rw [any_pid_map_update]
      have hrest2 : ∀ (q : List String),
          q.filter (fun j => !((store.map (fun p =>
            if p.pid == i then markPaidOne p today method txn remarks (genReceipt k) else p)).any
              (fun p => p.pid == j)))
           = q.filter (fun j => !(store.any (fun p => p.pid == j))) := by
        intro q
        refine List.filter_congr ?_
        intro j _
        rw [any_pid_map_update]
      rw [hrest, hrest2]
      simp

theorem map_update_keeps_stamped (today : Date) (method txn remarks : Option String)
    (receipt : String) (j i : String) (store : List Payment)
    (hinv : ∀ p ∈ store, p.pid = i → PaidStamped today p) :
    ∀ p ∈ store.map (fun p =>
        if p.pid == j then markPaidOne p today method txn remarks receipt else p),
      p.pid = i → PaidStamped today p := by
  intro p hp hpid
  rcases List.mem_map.1 hp with ⟨p₀, hp₀, rfl⟩
  by_cases hj : (p₀.pid == j) = true
  · rw [if_pos hj] at hpid ⊢
    exact markPaidOne_stamped p₀ today method txn remarks receipt
  · rw [if_neg hj] at hpid ⊢
    exact hinv p₀ hp₀ hpid

theorem map_update_stamps (today : Date) (method txn remarks : Option String)
    (receipt : String) (j : String) (store : List Payment) :
    ∀ p ∈ store.map (fun p =>
        if p.pid == j then markPaidOne p today method txn remarks receipt else p),
      p.pid = j → PaidStamped today p := by
  intro p hp hpid
  rcases List.mem_map.1 hp with ⟨p₀, hp₀, rfl⟩
  by_cases hj : (p₀.pid == j) = true
  · rw [if_pos hj]
    exact markPaidOne_stamped p₀ today method txn remarks receipt
  · rw [if_neg hj] at hpid
    exact absurd (beq_iff_eq.2 hpid) (by simpa using hj)

theorem bulkMarkPaidGo_preserves (today : Date) (method txn remarks : Option String)
    (genReceipt : Nat → String) (i : String) :
    ∀ (ids : List String) (store : List Payment) (acc : BulkResults) (k : Nat),
      (∀ p ∈ store, p.pid = i → PaidStamped today p) →
      ∀ p ∈ (bulkMarkPaidGo today method txn remarks genReceipt ids store acc k).2,
        p.pid = i → PaidStamped today p := by
  intro ids
  induction ids with
  | nil => intro store acc k hinv; simpa [bulkMarkPaidGo] using hinv
  | cons j rest ih =>
    intro store acc k hinv
    cases h : store.any (fun p => p.pid == j) with
    | false =>
      simp only [bulkMarkPaidGo, h, Bool.false_eq_true, if_false]
      exact ih store _ _ hinv
    | true =>
      simp only [bulkMarkPaidGo, h, if_true]
      exact ih _ _ _ (map_update_keeps_stamped today method txn remarks (genReceipt k) j i
        store hinv)

theorem bulkMarkPaidGo_marks (today : Date) (method txn remarks : Option String)
    (genReceipt : Nat → String) (i : String) :
    ∀ (ids : List String) (store : List Payment) (acc : BulkResults) (k : Nat),
      i ∈ ids → store.any (fun p => p.pid == i) = true →
      ∀ p ∈ (bulkMarkPaidGo today method txn remarks genReceipt ids store acc k).2,
        p.pid = i → PaidStamped today p := by
  intro ids
  induction ids with
  | nil => intro store acc k hi; cases hi
  | cons j rest ih =>
    intro store acc k hi hany
    rcases List.mem_cons.1 hi with rfl | hirest
    · simp only [bulkMarkPaidGo, hany, if_true]
      exact bulkMarkPaidGo_preserves today method txn remarks genReceipt i rest _ _ _
        (map_update_stamps today method txn remarks (genReceipt k) i store)
    · cases h : store.any (fun p => p.pid == j) with
      | false =>
        simp only [bulkMarkPaidGo, h, Bool.false_eq_true, if_false]
        exact ih store _ _ hirest hany
      | true =>
        simp only [bulkMarkPaidGo, h, if_true]
        by_cases hij : j = i
        · subst hij
          exact bulkMarkPaidGo_preserves today method txn remarks genReceipt j rest _ _ _
            (map_update_stamps today method txn remarks (genReceipt k) j store)
        · refine ih _ _ _ hirest ?_
          rw [any_pid_map_update]
          exact hany

/-- C8: both bulk ledger endpoints process their input lists item by item
without aborting: bulk-dues reports exactly the resolvable member ids as
successes, pairs every unresolvable id with the reason "Member not
found", creates one pending annual-subscription payment per resolvable id
and nothing else; bulk-mark-paid likewise partitions its payment ids into
successes and "Payment not found" failures and stamps every resolved
payment Paid with a paid date and a receipt number. -/
theorem bulk_ledger_per_item (users : List User) (memberIds : List String) (amount : Int)
    (today : Date) (remarks recordedBy : String) (store : List Payment)
    (paymentIds : List String) (method txn remarks2 : Option String)
    (genReceipt : Nat → String) (pstore : List Payment)
    (hids : memberIds ≠ []) (hamt : 0 < amount) (hpids : paymentIds ≠ []) :
    (bulkDues users memberIds amount today remarks recordedBy store).1
      = .ok { success := memberIds.filter (fun i => (users.find? (fun u => u.id == i)).isSome),
              failed := (memberIds.filter
                  (fun i => (users.find? (fun u => u.id == i)).isNone)).map
                    (fun i => (i, "Member not found")) }
    ∧ (memberIds.filter (fun i => (users.find? (fun u => u.id == i)).isSome)).length
        + (memberIds.filter (fun i => (users.find? (fun u => u.id == i)).isNone)).length
        = memberIds.length
    ∧ (bulkDues users memberIds amount today remarks recordedBy store).2.length
        = store.length
          + (memberIds.filter (fun i => (users.find? (fun u => u.id == i)).isSome)).length
    ∧ (∀ p ∈ (bulkDues users memberIds amount today remarks recordedBy store).2,
        p ∈ store ∨ (p.status = "Pending" ∧ p.paymentType = "Annual Subscription"))
    ∧ (bulkMarkPaid paymentIds today method txn remarks2 genReceipt pstore).1
      = .ok { success := paymentIds.filter (fun i => pstore.any (fun p => p.pid == i)),
              failed := (paymentIds.filter
                  (fun i => !(pstore.any (fun p => p.pid == i)))).map
                    (fun i => (i, "Payment not found")) }
    ∧ (∀ i ∈ paymentIds, pstore.any (fun p => p.pid == i) = true →
        ∀ p ∈ (bulkMarkPaid paymentIds today method txn remarks2 genReceipt pstore).2,
          p.pid = i → p.status = "Paid" ∧ p.paidDate = some today
            ∧ p.receiptNumber.isSome = true) := by
  have hdues : bulkDues users memberIds amount today remarks recordedBy store
      = (.ok { success := memberIds.filter (fun i => (users.find? (fun u => u.id == i)).isSome),
               failed := (memberIds.filter
                   (fun i => (users.find? (fun u => u.id == i)).isNone)).map
                     (fun i => (i, "Member not found")) },
         store ++ memberIds.filterMap (fun i => (users.find? (fun u => u.id == i)).map
           (fun m => mkDuePayment m amount today remarks recordedBy))) := by
    unfold bulkDues
    rw [if_neg hids, if_neg (by omega)]
    rw [bulkDuesGo_spec]
    simp
  have hmp1 : (bulkMarkPaid paymentIds today method txn remarks2 genReceipt pstore).1
      = .ok { success := paymentIds.filter (fun i => pstore.any (fun p => p.pid == i)),
              failed := (paymentIds.filter
                  (fun i => !(pstore.any (fun p => p.pid == i)))).map
                    (fun i => (i, "Payment not found")) } := by
    unfold bulkMarkPaid
    rw [if_neg hpids]
    show BulkOutcome.ok
        (bulkMarkPaidGo today method txn remarks2 genReceipt paymentIds pstore ⟨[], []⟩ 0).1 = _
    rw [bulkMarkPaidGo_results]
    simp
  have hmp2 : (bulkMarkPaid paymentIds today method txn remarks2 genReceipt pstore).2
      = (bulkMarkPaidGo today method txn remarks2 genReceipt paymentIds pstore ⟨[], []⟩ 0).2 := by
    unfold bulkMarkPaid
    rw [if_neg hpids]
  refine ⟨by rw [hdues], ?_, ?_, ?_, hmp1, ?_⟩
  · have h := length_filter_add_not (fun i => (users.find? (fun u => u.id == i)).isSome) memberIds
    have hco : memberIds.filter (fun i => !((users.find? (fun u => u.id == i)).isSome))
        = memberIds.filter (fun i => (users.find? (fun u => u.id == i)).isNone) := by
      refine List.filter_congr ?_
      intro x _
      cases users.find? (fun u => u.id == x) <;> rfl
    rw [hco] at h
    exact h
  · rw [hdues]
    simp [length_filterMap_isSome]
  · rw [hdues]
    intro p hp
    rcases List.mem_append.1 hp with h | h
    · exact Or.inl h
    · rcases List.mem_filterMap.1 h with ⟨i, _, hfi⟩
      cases hfind : users.find? (fun u => u.id == i) with
      | none => rw [hfind] at hfi; cases hfi
      | some m =>
        rw [hfind, Option.map_some'] at hfi
        injection hfi with hfi
        right
        rw [← hfi]
        exact ⟨rfl, rfl⟩
  · intro i hi hany p hp hpid
    rw [hmp2] at hp
    exact bulkMarkPaidGo_marks today method txn remarks2 genReceipt i paymentIds pstore
      ⟨[], []⟩ 0 hi hany p hp hpid

/-- Witness for C8: five member ids of which one does not resolve yield
four successes and created payments and exactly one "Member not found"
failure. -/
theorem bulk_ledger_per_item_witness :
    (bulkDues c8Users ["m1", "m2", "m3", "m4", "ghost"] 3000 ⟨2025, 5, 10⟩ "" "f1" []).1
      = .ok { success := ["m1", "m2", "m3", "m4"],
              failed := [("ghost", "Member not found")] }
    ∧ (bulkDues c8Users ["m1", "m2", "m3", "m4", "ghost"] 3000 ⟨2025, 5, 10⟩ "" "f1" []).2.length
      = 4 := by
  have h := bulk_ledger_per_item c8Users ["m1", "m2", "m3", "m4", "ghost"] 3000 ⟨2025, 5, 10⟩
    "" "f1" [] ["p1"] none none none (fun _ => "R") [] (by decide) (by decide) (by decide)
  constructor
  · rw [h.1]
    decide
  · rw [h.2.2.1]
    decide

theorem generateDuesGo_untouched (amount : Int) (today : Date) (recordedBy : String)
    (x : String) (pred : Payment → Bool) (hpred : ∀ p, pred p = true → p.memberId = x) :
    ∀ (ms : List User) (store : List Payment) (acc : GenResults), (∀ m ∈ ms, m.id ≠ x) →
      ((generateDuesGo amount today recordedBy ms store acc).2).filter pred
        = store.filter pred := by
  intro ms
  induction ms with
  | nil => intro store acc _; simp [generateDuesGo]
  | cons m rest ih =>
    intro store acc hne
    by_cases h1 : dateLt (setYear today (today.year - 1)) m.createdAt
    · simp only [generateDuesGo, if_pos h1]
      exact ih store _ (fun v hv => hne v (List.mem_cons_of_mem m hv))
    · cases h2 : annualDueExists store m.id (calculateSubscriptionYear m.createdAt today) with
      | true =>
        simp only [generateDuesGo, if_neg h1, h2, if_true]
        exact ih store _ (fun v hv => hne v (List.mem_cons_of_mem m hv))
      | false =>
        simp only [generateDuesGo, if_neg h1, h2, Bool.false_eq_true, if_false]
        rw [ih _ _ (fun v hv => hne v (List.mem_cons_of_mem m hv))]
        rw [List.filter_append]
        have hpm : pred (mkAnnualPayment m amount today recordedBy) = false := by
          cases hp : pred (mkAnnualPayment m amount today recordedBy)
          · rfl
          · exact absurd (hpred _ hp) (hne m (List.mem_cons_self m rest))
        simp [hpm]

theorem any_filter_false {α : Type} (p : α → Bool) (l : List α)
    (h : l.filter p = []) : l.any p = false := by
  cases ha : l.any p
  · rfl
  · rcases List.any_eq_true.1 ha with ⟨x, hx, hpx⟩
    have : x ∈ l.filter p := List.mem_filter.2 ⟨hx, hpx⟩
    rw [h] at this
    cases this

theorem generateDuesGo_member (amount : Int) (today : Date) (recordedBy : String) :
    ∀ (ms : List User) (store : List Payment) (acc : GenResults) (u : User),
      u ∈ ms → (ms.map (fun m => m.id)).Nodup →
      (dateLt (setYear today (today.year - 1)) u.createdAt →
        ((generateDuesGo amount today recordedBy ms store acc).2).filter
            (fun p => p.memberId == u.id)
          = store.filter (fun p => p.memberId == u.id))
      ∧ (¬ dateLt (setYear today (today.year - 1)) u.createdAt →
          (annualDueExists store u.id (calculateSubscriptionYear u.createdAt today) = true →
            ((generateDuesGo amount today recordedBy ms store acc).2).filter
                (fun p => p.memberId == u.id)
              = store.filter (fun p => p.memberId == u.id))
          ∧ (annualDueExists store u.id (calculateSubscriptionYear u.createdAt today) = false →
            ((generateDuesGo amount today recordedBy ms store acc).2).filter
                (annualDueMatches u.id (calculateSubscriptionYear u.createdAt today))
              = [mkAnnualPayment u amount today recordedBy])) := by
  intro ms
  induction ms with
  | nil => intro store acc u hu; cases hu
  | cons m rest ih =>
    intro store acc u hu hnd
    have hndrest : (rest.map (fun v => v.id)).Nodup := (List.nodup_cons.1 hnd).2
    have hmid : m.id ∉ rest.map (fun v => v.id) := (List.nodup_cons.1 hnd).1
    rcases List.mem_cons.1 hu with rfl | hurest
    · -- the member at the head of the sweep list
      have hrest_ne : ∀ v ∈ rest, v.id ≠ u.id := by
        intro v hv he
        exact hmid (he ▸ List.mem_map_of_mem (fun w => w.id) hv)
      constructor
      · intro h1
        simp only [generateDuesGo, if_pos h1]
        exact generateDuesGo_untouched amount today recordedBy u.id _
          (fun p hp => by simpa using hp) rest store _ hrest_ne
      · intro h1
        constructor
        · intro h2
          simp only [generateDuesGo, if_neg h1, h2, if_true]
          exact generateDuesGo_untouched amount today recordedBy u.id _
            (fun p hp => by simpa using hp) rest store _ hrest_ne
        · intro h2
          simp only [generateDuesGo, if_neg h1, h2, Bool.false_eq_true, if_false]
          rw [generateDuesGo_untouched amount today recordedBy u.id _
            (fun p hp => by
              simp only [annualDueMatches, Bool.and_eq_true, beq_iff_eq] at hp
              exact hp.1) rest _ _ hrest_ne]
          rw [List.filter_append]
          have hnil : store.filter
              (annualDueMatches u.id (calculateSubscriptionYear u.createdAt today)) = [] := by
            rw [List.filter_eq_nil_iff]
            intro p hp hmatch
            have : annualDueExists store u.id (calculateSubscriptionYear u.createdAt today)
                = true := List.any_eq_true.2 ⟨p, hp, hmatch⟩
            rw [h2] at this
            cases this
          have hone : annualDueMatches u.id (calculateSubscriptionYear u.createdAt today)
              (mkAnnualPayment u amount today recordedBy) = true := by
            unfold annualDueMatches mkAnnualPayment
            simp
          simp [hnil, hone]
    · -- the member sits deeper in the sweep list
      have hmu : m.id ≠ u.id := by
        intro he
        exact hmid (he ▸ List.mem_map_of_mem (fun w => w.id) hurest)
      have step : ∀ (store₁ : List Payment),
          (store₁ = store ∨ store₁ = store ++ [mkAnnualPayment m amount today recordedBy]) →
          store₁.filter (fun p => p.memberId == u.id)
              = store.filter (fun p => p.memberId == u.id)
          ∧ store₁.filter (annualDueMatches u.id (calculateSubscriptionYear u.createdAt today))
              = store.filter (annualDueMatches u.id (calculateSubscriptionYear u.createdAt today))
          ∧ annualDueExists store₁ u.id (calculateSubscriptionYear u.createdAt today)
              = annualDueExists store u.id (calculateSubscriptionYear u.createdAt today) := by
        rintro store₁ (rfl | rfl)
        · exact ⟨rfl, rfl, rfl⟩
        · have hb : ((mkAnnualPayment m amount today recordedBy).memberId == u.id) = false := by
            simpa using hmu
          have hm : annualDueMatches u.id (calculateSubscriptionYear u.createdAt today)
              (mkAnnualPayment m amount today recordedBy) = false := by
            unfold annualDueMatches
            rw [hb]
            rfl
          refine ⟨?_, ?_, ?_⟩
          · rw [List.filter_append]
            simp [hb]
          · rw [List.filter_append]
            simp [hm]
          · unfold annualDueExists
            rw [List.any_append]
            simp [hm]
      by_cases h1 : dateLt (setYear today (today.year - 1)) m.createdAt
      · simp only [generateDuesGo, if_pos h1]
        exact ih store _ u hurest hndrest
      · cases h2 : annualDueExists store m.id (calculateSubscriptionYear m.createdAt today) with
        | true =>
          simp only [generateDuesGo, if_neg h1, h2, if_true]
          exact ih store _ u hurest hndrest
        | false =>
          simp only [generateDuesGo, if_neg h1, h2, Bool.false_eq_true, if_false]
          have hih := ih (store ++ [mkAnnualPayment m amount today recordedBy])
            { acc with created := acc.created + 1, processed := acc.processed + 1 }
            u hurest hndrest
          rcases step _ (Or.inr rfl) with ⟨s1, s2, s3⟩
          constructor
          · intro hy
            rw [hih.1 hy, s1]
          · intro hy
            refine ⟨?_, ?_⟩
            · intro he
              rw [(hih.2 hy).1 (by rw [s3]; exact he), s1]
            · intro he
              rw [(hih.2 hy).2 (by rw [s3]; exact he)]

/-- C6: in the annual-dues sweep over the active Member-role users (with
distinct user ids), a member registered after one year ago gets no new
payment; a member registered at least one year ago with an existing
annual due for the current subscription year gets no new payment; and a
member registered at least one year ago with no such payment ends up with
exactly one annual-subscription payment for the current subscription
year, the auto-generated one. -/
theorem generateAnnualDues_per_member (users : List User) (store : List Payment) (amount : Int)
    (today : Date) (recordedBy : String) (u : User)
    (hu : u ∈ activeMembers users)
    (hnd : ((activeMembers users).map (fun m => m.id)).Nodup) :
    (dateLt (setYear today (today.year - 1)) u.createdAt →
      ((generateAnnualDues users amount today recordedBy store).2).filter
          (fun p => p.memberId == u.id)
        = store.filter (fun p => p.memberId == u.id))
    ∧ (¬ dateLt (setYear today (today.year - 1)) u.createdAt →
        (annualDueExists store u.id (calculateSubscriptionYear u.createdAt today) = true →
          ((generateAnnualDues users amount today recordedBy store).2).filter
              (fun p => p.memberId == u.id)
            = store.filter (fun p => p.memberId == u.id))
        ∧ (annualDueExists store u.id (calculateSubscriptionYear u.createdAt today) = false →
          ((generateAnnualDues users amount today recordedBy store).2).filter
              (annualDueMatches u.id (calculateSubscriptionYear u.createdAt today))
            = [mkAnnualPayment u amount today recordedBy])) :=
  generateDuesGo_member amount today recordedBy (activeMembers users) store ⟨0, 0, 0⟩ u hu hnd

/-- Witness for C6: an active member registered well over a year ago with
an empty ledger receives exactly one auto-generated annual due. -/
theorem generateAnnualDues_per_member_witness :
    ((generateAnnualDues [c6Member] 3000 ⟨2025, 5, 10⟩ "f1" []).2).filter
        (annualDueMatches "m1" (calculateSubscriptionYear ⟨2023, 4, 1⟩ ⟨2025, 5, 10⟩))
      = [mkAnnualPayment c6Member 3000 ⟨2025, 5, 10⟩ "f1"] :=
  ((generateAnnualDues_per_member [c6Member] [] 3000 ⟨2025, 5, 10⟩ "f1" c6Member
    (by decide) (by decide)).2 (by decide)).2 (by decide)

/-- C7: the subscription-year label is startYear-(startYear+1) where
startYear is the registration year plus the elapsed whole years
(decremented when today's month/day precedes the registration month/day),
and that startYear is exactly the year of the most recent registration
anniversary at or before today: the anniversary in startYear is not after
today, and the one in startYear+1 is after today. -/
theorem calculateSubscriptionYear_anniversary (reg today : Date) :
    calculateSubscriptionYear reg today
      = toString (subscriptionStartYear reg today) ++ "-"
        ++ toString (subscriptionStartYear reg today + 1)
    ∧ ¬ dateLt today ⟨subscriptionStartYear reg today, reg.month, reg.day⟩
    ∧ dateLt today ⟨subscriptionStartYear reg today + 1, reg.month, reg.day⟩ := by
  refine ⟨rfl, ?_, ?_⟩
  all_goals
    unfold subscriptionStartYear dateLt
    split_ifs with h <;> simp_all <;> omega

/-- C9: a login attempt against a stored but inactive user fails with the
401 inactive message and issues no token, whatever credential is
supplied. -/
theorem login_inactive_rejected (users : List User) (its pw : String) (u : User)
    (hfind : users.find? (fun v => v.itsNumber == its) = some u)
    (hstatus : u.status ≠ "active") :
    loginUser its pw users = .unauthorized "User account is inactive"
    ∧ ∀ i r t d, loginUser its pw users ≠ .ok i r t d := by
  have h : loginUser its pw users = .unauthorized "User account is inactive" := by
    unfold loginUser
    rw [hfind]
    simp [hstatus]
  exact ⟨h, fun i r t d hc => by rw [h] at hc; exact LoginResult.noConfusion hc⟩

/-- Witness for C9: the inactive user c9User with the correct credential
still gets the 401 inactive outcome. -/
theorem login_inactive_rejected_witness :
    loginUser "40491000" "pw" [c9User] = .unauthorized "User account is inactive" :=
  (login_inactive_rejected [c9User] "40491000" "pw" c9User (by decide) (by decide)).1

/-- C10: attendance self-registration never consults the user store: for
any list of existing user ids not containing the supplied member id, a
non-empty member id absent from the attendance list is appended and
reported successful. -/
theorem registerAttendance_no_user_check (userIds : List String) (m : Miqaat)
    (memberId : String) (now : Date) (hne : memberId ≠ "")
    (habs : m.attendance.any (fun a => a.member == memberId) = false)
    (_hnouser : memberId ∉ userIds) :
    registerMiqaatAttendance m memberId now
      = (.ok "Registered for Khidmat successfully.",
         { m with attendance := m.attendance ++ [⟨memberId, "Present", some now, none⟩] }) := by
  unfold registerMiqaatAttendance
  rw [if_neg hne, habs]
  simp

/-- Witness for C10: a member id that exists in no user store still
registers successfully. -/
theorem registerAttendance_no_user_check_witness :
    registerMiqaatAttendance c4Miqaat "ghost-user" ⟨2025, 6, 1⟩
      = (.ok "Registered for Khidmat successfully.",
         { c4Miqaat with attendance := c4Miqaat.attendance
             ++ [⟨"ghost-user", "Present", some ⟨2025, 6, 1⟩, none⟩] }) :=
  registerAttendance_no_user_check ["a1", "a2"] c4Miqaat "ghost-user" ⟨2025, 6, 1⟩
    (by decide) (by decide) (by decide)

end BGI
